import Mathlib

/-!
Shallow embedding of `OrzMiku/minecraft-server-launcher-core` (crate `mslc`,
files `src/lib.rs` and `src/main.rs`).

The library is a builder (`MinecraftServerBuilder`) producing a
`MinecraftServer` value, plus a launcher (`MinecraftServer::run`) that spawns
the child process with piped stdio and runs three stream-forwarding threads.

Modelling conventions:
* `Option`/`Except` mirror Rust's `Option`/`Result`.
* A Rust `.unwrap()` that can actually fail is modelled by an explicit
  `panic`-carrying result type (`BuildResult`, `RunResult`), since a failing
  `unwrap` aborts instead of returning.
* The three forwarding threads are modelled as pure functions from the
  sequence of I/O events each thread observes to the sequence of actions it
  performs.  Each thread owns its stream exclusively, so this per-thread
  trace semantics is faithful.
* Filesystem and OS process creation are outside the program: `build` in the
  source performs no filesystem or process access at all, and the embedding
  reflects that by being a pure function of the builder value alone.
-/

deriving instance DecidableEq for Except

/-- Builder state: `MinecraftServerBuilder` (src/lib.rs lines 29-35).
All five fields are `Option`s. -/
structure MinecraftServerBuilder where
  server_path : Option String
  server_jar : Option String
  java_path : Option String
  java_args : Option (List String)
  gui : Option Bool
  deriving Repr, DecidableEq

/-- The finished configuration: `MinecraftServer` (src/lib.rs lines 115-121). -/
structure MinecraftServer where
  server_path : String
  server_jar : String
  java_path : String
  java_args : List String
  gui : Bool
  deriving Repr, DecidableEq

/-- `MinecraftServerBuildError` (src/lib.rs lines 109-112): exactly two
variants, neither carrying a payload. -/
inductive MinecraftServerBuildError where
  | MissingServerPath
  | MissingServerJar
  deriving Repr, DecidableEq

/-- `MinecraftServerBuilder::new` (src/lib.rs lines 49-57): `server_path` and
`server_jar` start unset, `java_path` starts as `Some "java"`, `java_args`
as `None`, `gui` as `Some false`. -/
def MinecraftServerBuilder.new : MinecraftServerBuilder :=
  { server_path := none
    server_jar := none
    java_path := some "java"
    java_args := none
    gui := some false }

/-- Setter `server_path` (src/lib.rs lines 60-63); named `set_server_path`
because Lean reserves `MinecraftServerBuilder.server_path` for the field
projection. -/
def MinecraftServerBuilder.set_server_path
    (b : MinecraftServerBuilder) (path : String) : MinecraftServerBuilder :=
  { b with server_path := some path }

/-- Setter `server_jar` (src/lib.rs lines 66-69). -/
def MinecraftServerBuilder.set_server_jar
    (b : MinecraftServerBuilder) (jar : String) : MinecraftServerBuilder :=
  { b with server_jar := some jar }

/-- Setter `java_path` (src/lib.rs lines 72-75). -/
def MinecraftServerBuilder.set_java_path
    (b : MinecraftServerBuilder) (path : String) : MinecraftServerBuilder :=
  { b with java_path := some path }

/-- Setter `java_args` (src/lib.rs lines 78-81). -/
def MinecraftServerBuilder.set_java_args
    (b : MinecraftServerBuilder) (args : List String) : MinecraftServerBuilder :=
  { b with java_args := some args }

/-- Setter `gui` (src/lib.rs lines 84-87). -/
def MinecraftServerBuilder.set_gui
    (b : MinecraftServerBuilder) (g : Bool) : MinecraftServerBuilder :=
  { b with gui := some g }

/-- Result of `MinecraftServerBuilder::build`.  The source calls
`self.java_path.unwrap()` (line 99) after checking only `server_path` and
`server_jar`; an `unwrap` of `None` aborts the process, modelled by the
`panic` constructor. -/
inductive BuildResult where
  | panic
  | err (e : MinecraftServerBuildError)
  | ok (s : MinecraftServer)
  deriving Repr, DecidableEq

/-- `MinecraftServerBuilder::build` (src/lib.rs lines 90-103), statement by
statement: if `server_path` is `None` return `Err(MissingServerPath)`; else
if `server_jar` is `None` return `Err(MissingServerJar)`; otherwise build the
`MinecraftServer` with `java_path.unwrap()` (panic if `None`),
`java_args.unwrap_or_default()` and `gui.unwrap_or(false)`.  The function
touches no filesystem and probes no process: it is pure in the builder. -/
def MinecraftServerBuilder.build (b : MinecraftServerBuilder) : BuildResult :=
  match b.server_path with
  | none => .err .MissingServerPath
  | some p =>
    match b.server_jar with
    | none => .err .MissingServerJar
    | some j =>
      match b.java_path with
      | none => .panic
      | some jp =>
        .ok { server_path := p
              server_jar := j
              java_path := jp
              java_args := b.java_args.getD []
              gui := b.gui.getD false }

/-- Builders reachable from `MinecraftServerBuilder::new()` by any finite
sequence of setter calls (the only public constructors of builder values in
the crate). -/
inductive ReachableBuilder : MinecraftServerBuilder → Prop where
  | new : ReachableBuilder MinecraftServerBuilder.new
  | set_server_path (b : MinecraftServerBuilder) (p : String) :
      ReachableBuilder b → ReachableBuilder (b.set_server_path p)
  | set_server_jar (b : MinecraftServerBuilder) (j : String) :
      ReachableBuilder b → ReachableBuilder (b.set_server_jar j)
  | set_java_path (b : MinecraftServerBuilder) (p : String) :
      ReachableBuilder b → ReachableBuilder (b.set_java_path p)
  | set_java_args (b : MinecraftServerBuilder) (a : List String) :
      ReachableBuilder b → ReachableBuilder (b.set_java_args a)
  | set_gui (b : MinecraftServerBuilder) (g : Bool) :
      ReachableBuilder b → ReachableBuilder (b.set_gui g)

/-- The command handed to the OS: program, argument list and working
directory, as assembled by `Command::new(..).args(..).arg(..)...
.current_dir(..)`. -/
structure Command where
  program : String
  args : List String
  current_dir : String
  deriving Repr, DecidableEq

/-- `MinecraftServer::get_command` (src/lib.rs lines 208-217): program is
`java_path`; arguments are `java_args`, then `"-jar"`, then `server_jar`,
then `"--gui"` if `gui` else `"--nogui"`; working directory is
`server_path`. -/
def MinecraftServer.get_command (s : MinecraftServer) : Command :=
  { program := s.java_path
    args := s.java_args ++ ["-jar", s.server_jar,
              if s.gui then "--gui" else "--nogui"]
    current_dir := s.server_path }

/-- Modelled from the spec (section 6, headless-mode token contract): the
spec's "headless flag" is true exactly when the no-GUI token `--nogui` is
appended to the command line.  In this source that is the negation of the
`gui` field (src/lib.rs line 214). -/
def MinecraftServer.spec_headless (s : MinecraftServer) : Bool :=
  !s.gui

/-! ## The forwarding threads of `run` -/

/-- One read outcome of `BufRead::lines()` on the child's stdout/stderr pipe:
a successfully read line, or an I/O error (carried as its display string).
End of stream is the end of the event list — `Lines` yields `None` only at
EOF, and keeps iterating after an `Err`. -/
inductive ReadEvent where
  | line (s : String)
  | err (e : String)
  deriving Repr, DecidableEq

/-- An output action of a forwarder thread on the parent's console:
`println!` to parent stdout, or `eprintln!` to parent stderr. -/
inductive OutAct where
  | out (s : String)
  | errOut (s : String)
  deriving Repr, DecidableEq

/-- The stdout forwarder (src/lib.rs lines 170-178): for each item of
`reader.lines()`, `Ok(line)` is printed to the parent's stdout and `Err(e)`
is reported to the parent's stderr as "Error reading stdout: " followed by
the error; iteration
continues either way and stops only at end of stream. -/
def stdoutLoop : List ReadEvent → List OutAct
  | [] => []
  | .line s :: rest => .out s :: stdoutLoop rest
  | .err e :: rest =>
      .errOut ("Error reading stdout: " ++ e) :: stdoutLoop rest

/-- The stderr forwarder (src/lib.rs lines 180-188): symmetric to
`stdoutLoop`, writing lines and error reports to the parent's stderr. -/
def stderrLoop : List ReadEvent → List OutAct
  | [] => []
  | .line s :: rest => .errOut s :: stderrLoop rest
  | .err e :: rest =>
      .errOut ("Error reading stderr: " ++ e) :: stderrLoop rest

/-- A write-side action on the child's stdin pipe: a `write_all` of a string
(the raw `read_line` content, terminator included) or a `flush`. -/
inductive WAct where
  | write (s : String)
  | flush
  deriving Repr, DecidableEq

/-- The I/O outcomes one iteration of the stdin forwarder observes: the
result of `std::io::stdin().read_line` (the line read, terminator included;
`Ok ""` at EOF) and the results of `write_all` and `flush` on the child
pipe.  Errors carry their display strings. -/
structure StdinIter where
  readRes : Except String String
  writeRes : Except String Unit
  flushRes : Except String Unit
  deriving Repr, DecidableEq

/-- An iteration of the stdin forwarder in which everything succeeds and the
line `s` is read. -/
def StdinIter.okLine (s : String) : StdinIter :=
  { readRes := .ok s, writeRes := .ok (), flushRes := .ok () }

/-- The first `k` iterations of the stdin forwarder (src/lib.rs lines
190-198), one `StdinIter` per iteration; the source loop itself is `loop`
with no exit, so the event list is a finite prefix of its behaviour.  Each
iteration does `read_line(..).unwrap()`, `write_all(..).unwrap()`,
`flush().unwrap()`: any `Err` panics the thread (second component `some e`),
otherwise the write and the flush are performed and the loop continues. -/
def stdinLoop : List StdinIter → List WAct × Option String
  | [] => ([], none)
  | it :: rest =>
    match it.readRes with
    | .error e => ([], some e)
    | .ok s =>
      match it.writeRes with
      | .error e => ([], some e)
      | .ok () =>
        match it.flushRes with
        | .error e => ([WAct.write s], some e)
        | .ok () =>
          let r := stdinLoop rest
          (WAct.write s :: WAct.flush :: r.1, r.2)

/-- The strings written (by `write_all`) in a write-action trace. -/
def writesOf (l : List WAct) : List String :=
  l.filterMap fun a => match a with | .write s => some s | .flush => none

/-! ## `run` -/

/-- What the spawned child provides to `run`: the event sequences each
forwarder thread observes and the result of `Child::wait` (exit status code
on success). -/
structure Child where
  stdoutEvents : List ReadEvent
  stderrEvents : List ReadEvent
  stdinIters : List StdinIter
  waitRes : Except String Nat
  deriving Repr, DecidableEq

/-- The environment of one `run` call: the outcome of
`Command::spawn` — an I/O error (e.g. interpreter binary not found) or a
child process. -/
structure RunEnv where
  spawnRes : Except String Child
  deriving Repr, DecidableEq

/-- The observable effects of a completed (non-panicking) `run`: the actions
of the stdout and stderr forwarders on the parent console and the writes to
the child's stdin pipe. -/
structure RunTrace where
  stdoutActs : List OutAct
  stderrActs : List OutAct
  stdinWrites : List WAct
  deriving Repr, DecidableEq

/-- Result of `MinecraftServer::run`: a panic (a failing `.unwrap()`
aborts), or a normal return carrying the Rust return value
`Result<(), std::io::Error>` together with the observable trace.  The
source's only normal return is `Ok(())` (src/lib.rs line 204). -/
inductive RunResult where
  | panic (msg : String)
  | done (ret : Except String Unit) (trace : RunTrace)
  deriving Repr, DecidableEq

/-- `MinecraftServer::run` (src/lib.rs lines 158-205), step by step:
`spawn().unwrap()` — a spawn error panics; the three stream handles are
taken (always present with piped stdio) and the three forwarder threads run;
`stdout_thread.join().unwrap()`, `stderr_thread.join().unwrap()` — those two
threads never panic; `stdin_thread.join().unwrap()` — if the stdin thread
panicked, the join result's `unwrap` panics `run` itself;
`server.wait().unwrap()` — a wait error panics; finally the exit status is
discarded (`let _ =`) and `Ok(())` is returned. -/
def MinecraftServer.run (env : RunEnv) : RunResult :=
  match env.spawnRes with
  | .error e => .panic e
  | .ok child =>
    match (stdinLoop child.stdinIters).2 with
    | some e => .panic e
    | none =>
      match child.waitRes with
      | .error e => .panic e
      | .ok _status =>
        .done (.ok ()) { stdoutActs := stdoutLoop child.stdoutEvents
                         stderrActs := stderrLoop child.stderrEvents
                         stdinWrites := (stdinLoop child.stdinIters).1 }

/-! ## Theorems for the claims -/

/-- C1: the claim says a spawn failure makes `run()` return a launch I/O
error rather than panic.  The source (src/lib.rs lines 158-164) calls
`.spawn().unwrap()`: a spawn failure panics and the `Result<(),
std::io::Error>` return type is never used to carry it.  This theorem
evaluates the code at the failing input: a configuration whose interpreter
cannot be spawned (e.g. `java_path = "invalid_java_path"` as in
src/main.rs) makes `run` panic with the spawn error. -/
theorem C1_spawn_failure_panics :
    MinecraftServer.run
      { spawnRes := .error "No such file or directory (os error 2)" } =
    .panic "No such file or directory (os error 2)" := rfl

/-- C2 counterexample: the claim says that with both required fields present
but a nonexistent working directory, `build` fails with
`InvalidWorkingDirectory(path)`.  `build` (src/lib.rs lines 90-103) performs
no filesystem access at all — it is a pure function of the builder — and
`MinecraftServerBuildError` has no such variant: with the plainly
nonexistent directory `/no/such/dir-e5b8` configured, `build` succeeds. -/
theorem C2_counterexample :
    ((MinecraftServerBuilder.new.set_server_path "/no/such/dir-e5b8").set_server_jar
        "server.jar").build =
    .ok { server_path := "/no/such/dir-e5b8", server_jar := "server.jar",
          java_path := "java", java_args := [], gui := false } := rfl

/-- C2 amended: `build` performs no working-directory existence check:
whenever both required fields and `java_path` are set, it succeeds with the
configured path embedded verbatim, regardless of any filesystem state (the
function consults none). -/
theorem C2_build_no_directory_check (b : MinecraftServerBuilder)
    (p j q : String) (hp : b.server_path = some p)
    (hj : b.server_jar = some j) (hq : b.java_path = some q) :
    b.build = .ok { server_path := p, server_jar := j, java_path := q,
                    java_args := b.java_args.getD [],
                    gui := b.gui.getD false } := by
  simp [MinecraftServerBuilder.build, hp, hj, hq]

/-- C2 witness. -/
theorem C2_build_no_directory_check_witness :
    ((MinecraftServerBuilder.new.set_server_path "/definitely/missing").set_server_jar
        "a.jar").build =
    .ok { server_path := "/definitely/missing", server_jar := "a.jar",
          java_path := "java",
          java_args := (((MinecraftServerBuilder.new.set_server_path
              "/definitely/missing").set_server_jar "a.jar").java_args).getD [],
          gui := (((MinecraftServerBuilder.new.set_server_path
              "/definitely/missing").set_server_jar "a.jar").gui).getD false } :=
  C2_build_no_directory_check _ "/definitely/missing" "a.jar" "java" rfl rfl rfl

/-- C3 counterexample: the claim says an interpreter path whose `--version`
probe fails makes `build` fail with `InvalidInterpreterPath(path)`.  `build`
spawns no probe process and the error type has no such variant: the exact
configuration of src/main.rs, with the unresolvable interpreter
`invalid_java_path`, builds successfully. -/
theorem C3_counterexample :
    (((MinecraftServerBuilder.new.set_java_path "invalid_java_path").set_server_path
        "/home/orzmiku/mcserver/").set_server_jar "server.jar").build =
    .ok { server_path := "/home/orzmiku/mcserver/", server_jar := "server.jar",
          java_path := "invalid_java_path", java_args := [], gui := false } := rfl

/-- C3 amended: `build` performs no interpreter probe: with both required
fields present, any interpreter-path string whatsoever is accepted and
embedded verbatim in the resulting configuration. -/
theorem C3_build_no_interpreter_probe (b : MinecraftServerBuilder)
    (jp p j : String) (hp : b.server_path = some p)
    (hj : b.server_jar = some j) :
    (b.set_java_path jp).build =
      .ok { server_path := p, server_jar := j, java_path := jp,
            java_args := b.java_args.getD [],
            gui := b.gui.getD false } := by
  simp [MinecraftServerBuilder.build, MinecraftServerBuilder.set_java_path,
        hp, hj]

/-- C3 witness. -/
theorem C3_build_no_interpreter_probe_witness :
    (((MinecraftServerBuilder.new.set_server_path "/srv").set_server_jar
        "b.jar").set_java_path "not-a-binary").build =
    .ok { server_path := "/srv", server_jar := "b.jar",
          java_path := "not-a-binary",
          java_args := (((MinecraftServerBuilder.new.set_server_path
              "/srv").set_server_jar "b.jar").java_args).getD [],
          gui := (((MinecraftServerBuilder.new.set_server_path
              "/srv").set_server_jar "b.jar").gui).getD false } :=
  C3_build_no_interpreter_probe _ "not-a-binary" "/srv" "b.jar" rfl rfl

/-- C4: `build` fails fast in a fixed order (src/lib.rs lines 91-95): if
`server_path` is unset it returns `MissingServerPath` — even when
`server_jar` is also unset — and if `server_path` is set but `server_jar`
is unset it returns `MissingServerJar`.  `build` is a pure function of the
builder, so neither case performs filesystem or process probing. -/
theorem C4_build_fail_fast (b : MinecraftServerBuilder) :
    (b.server_path = none → b.build = .err .MissingServerPath) ∧
    (b.server_path.isSome → b.server_jar = none →
      b.build = .err .MissingServerJar) := by
  constructor
  · intro h
    simp [MinecraftServerBuilder.build, h]
  · intro h1 h2
    obtain ⟨p, hp⟩ := Option.isSome_iff_exists.mp h1
    simp [MinecraftServerBuilder.build, hp, h2]

/-- C4 witness: a fresh builder (both required fields unset) fails with
`MissingServerPath`; setting only the path fails with `MissingServerJar`. -/
theorem C4_build_fail_fast_witness :
    MinecraftServerBuilder.new.build = .err .MissingServerPath ∧
    (MinecraftServerBuilder.new.set_server_path "/srv/mc").build =
      .err .MissingServerJar :=
  ⟨(C4_build_fail_fast MinecraftServerBuilder.new).1 rfl,
   (C4_build_fail_fast (MinecraftServerBuilder.new.set_server_path
      "/srv/mc")).2 rfl rfl⟩

/-- C5: the command line is the interpreter path, then the interpreter
arguments, then `-jar`, then the artifact, then the headless-mode token
(`--nogui` when the spec-level headless flag is true, `--gui` otherwise),
run in the configured working directory (src/lib.rs lines 208-217); in
particular the fully valid configuration with working directory
`/tmp/server`, artifact `server.jar`, default interpreter, no extra args
and headless = true (gui = false) yields `java -jar server.jar --nogui`
in `/tmp/server`. -/
theorem C5_command_line :
    (∀ s : MinecraftServer,
      s.get_command =
        { program := s.java_path
          args := s.java_args ++ ["-jar", s.server_jar,
                    if s.spec_headless then "--nogui" else "--gui"]
          current_dir := s.server_path }) ∧
    MinecraftServer.get_command
      { server_path := "/tmp/server", server_jar := "server.jar",
        java_path := "java", java_args := [], gui := false } =
      { program := "java", args := ["-jar", "server.jar", "--nogui"],
        current_dir := "/tmp/server" } := by
  constructor
  · intro s
    rcases s with ⟨sp, sj, jp, ja, g⟩
    cases g <;> rfl
  · rfl

/-- C6 counterexample: the claim says the headless flag defaults to false.
A builder with only the required fields set builds with `gui = false`
(src/lib.rs lines 53-55, 101), and under the spec's token contract
(headless true ↔ `--nogui` appended) that default configuration is
headless: its command line carries `--nogui`, so the headless flag
defaults to true, not false. -/
theorem C6_counterexample :
    ((MinecraftServerBuilder.new.set_server_path "/tmp/server").set_server_jar
        "server.jar").build =
      .ok { server_path := "/tmp/server", server_jar := "server.jar",
            java_path := "java", java_args := [], gui := false } ∧
    MinecraftServer.spec_headless
      { server_path := "/tmp/server", server_jar := "server.jar",
        java_path := "java", java_args := [], gui := false } = true ∧
    (MinecraftServer.get_command
      { server_path := "/tmp/server", server_jar := "server.jar",
        java_path := "java", java_args := [], gui := false }).args =
      ["-jar", "server.jar", "--nogui"] :=
  ⟨rfl, rfl, rfl⟩

/-- C6 amended: with the optional fields never set, `build` defaults the
interpreter path to `"java"`, the interpreter arguments to the empty
sequence, and the `gui` field to `false` — which under the spec's token
contract means the headless flag defaults to TRUE (`--nogui` is appended
by default). -/
theorem C6_defaults (p j : String) :
    ((MinecraftServerBuilder.new.set_server_path p).set_server_jar j).build =
      .ok { server_path := p, server_jar := j, java_path := "java",
            java_args := [], gui := false } ∧
    MinecraftServer.spec_headless
      { server_path := p, server_jar := j, java_path := "java",
        java_args := [], gui := false } = true :=
  ⟨rfl, rfl⟩

/-- Child behaviour used for C7: no output, no stderr, no stdin traffic,
clean exit with the given status code. -/
def quietChild (status : Nat) : Child :=
  { stdoutEvents := [], stderrEvents := [], stdinIters := [],
    waitRes := .ok status }

/-- C7 counterexample: the claim says `run()` returns the child's exit
status to its caller.  The source discards the status
(`let _ = server.wait().unwrap()`, src/lib.rs line 203) and returns
`Ok(())`: two runs whose children exit with statuses 42 and 0 return the
very same value, which carries no status at all. -/
theorem C7_counterexample :
    MinecraftServer.run { spawnRes := .ok (quietChild 42) } =
      MinecraftServer.run { spawnRes := .ok (quietChild 0) } ∧
    MinecraftServer.run { spawnRes := .ok (quietChild 42) } =
      .done (.ok ()) { stdoutActs := [], stderrActs := [],
                       stdinWrites := [] } :=
  ⟨rfl, rfl⟩

/-- C7 amended: on a successful run (spawn succeeded, the stdin forwarder
did not panic, `wait` succeeded) `run` joins the three forwarders, waits
for the child, then DISCARDS the exit status and returns `Ok(())`: the
returned value does not mention `status`. -/
theorem C7_run_discards_exit_status (child : Child) (status : Nat)
    (hw : child.waitRes = .ok status)
    (hs : (stdinLoop child.stdinIters).2 = none) :
    MinecraftServer.run { spawnRes := .ok child } =
      .done (.ok ()) { stdoutActs := stdoutLoop child.stdoutEvents
                       stderrActs := stderrLoop child.stderrEvents
                       stdinWrites := (stdinLoop child.stdinIters).1 } := by
  simp [MinecraftServer.run, hw, hs]

/-- C7 witness. -/
theorem C7_run_discards_exit_status_witness :
    MinecraftServer.run { spawnRes := .ok (quietChild 7) } =
      .done (.ok ()) { stdoutActs := stdoutLoop (quietChild 7).stdoutEvents
                       stderrActs := stderrLoop (quietChild 7).stderrEvents
                       stdinWrites := (stdinLoop (quietChild 7).stdinIters).1 } :=
  C7_run_discards_exit_status (quietChild 7) 7 rfl rfl

/-- C8 counterexample: the claim says every per-line failure in a forwarder
is logged and terminates only that forwarder's loop, without panicking.
In the stdout forwarder a read error is logged but the loop CONTINUES
(the line after the error is still forwarded), and in the stdin forwarder a
read error is not logged at all: the `unwrap` panics the thread. -/
theorem C8_counterexample :
    stdoutLoop [.err "broken pipe", .line "hello"] =
      [.errOut "Error reading stdout: broken pipe", .out "hello"] ∧
    stdinLoop [{ readRes := .error "broken pipe", writeRes := .ok (),
                 flushRes := .ok () }] =
      ([], some "broken pipe") :=
  ⟨rfl, rfl⟩

/-- C8 amended: a per-line read failure in the stdout or stderr forwarder
is logged to the parent's stderr and the loop continues with the remaining
events (siblings are independent functions of their own streams, so they
are unaffected); a read failure in the stdin forwarder logs nothing and
panics that thread, and once `run` joins it the whole `run` call panics
too. -/
theorem C8_forwarder_failure_behaviour (e : String) (rest : List ReadEvent)
    (it : StdinIter) (rest2 : List StdinIter)
    (so se : List ReadEvent) (w : Except String Nat)
    (h : it.readRes = .error e) :
    stdoutLoop (.err e :: rest) =
      .errOut ("Error reading stdout: " ++ e) :: stdoutLoop rest ∧
    stderrLoop (.err e :: rest) =
      .errOut ("Error reading stderr: " ++ e) :: stderrLoop rest ∧
    stdinLoop (it :: rest2) = ([], some e) ∧
    MinecraftServer.run
      { spawnRes := .ok { stdoutEvents := so, stderrEvents := se,
                          stdinIters := it :: rest2, waitRes := w } } =
      .panic e := by
  have hstdin : stdinLoop (it :: rest2) = ([], some e) := by
    simp [stdinLoop, h]
  refine ⟨rfl, rfl, hstdin, ?_⟩
  simp [MinecraftServer.run, hstdin]

/-- C8 witness. -/
theorem C8_forwarder_failure_behaviour_witness :
    stdoutLoop [.err "eio"] = [.errOut "Error reading stdout: eio"] ∧
    stderrLoop [.err "eio"] = [.errOut "Error reading stderr: eio"] ∧
    stdinLoop [{ readRes := .error "eio", writeRes := .ok (),
                 flushRes := .ok () }] = ([], some "eio") ∧
    MinecraftServer.run
      { spawnRes := .ok { stdoutEvents := [], stderrEvents := [],
                          stdinIters := [{ readRes := .error "eio",
                                           writeRes := .ok (),
                                           flushRes := .ok () }],
                          waitRes := .ok 0 } } =
      .panic "eio" := by
  have := C8_forwarder_failure_behaviour "eio" []
    { readRes := .error "eio", writeRes := .ok (), flushRes := .ok () } []
    [] [] (.ok 0) rfl
  simpa using this

/-- C9: when the parent's stdin yields the lines `ls` (each as returned by
`read_line`, terminator included) and every write and flush succeeds, the
stdin forwarder's trace is exactly one `write` of each line followed
immediately by a `flush`, in input order, with no panic — so exactly
`ls.length` lines are written to the child's stdin pipe, in order, each
flushed individually before the next read (src/lib.rs lines 190-198). -/
theorem C9_stdin_forwarding (ls : List String) :
    stdinLoop (ls.map StdinIter.okLine) =
      ((ls.map fun s => [WAct.write s, WAct.flush]).flatten, none) ∧
    writesOf (stdinLoop (ls.map StdinIter.okLine)).1 = ls := by
  have h1 : ∀ t : List String, stdinLoop (t.map StdinIter.okLine) =
      ((t.map fun s => [WAct.write s, WAct.flush]).flatten, none) := by
    intro t
    induction t with
    | nil => rfl
    | cons s t ih =>
      simp only [List.map_cons, List.flatten_cons, stdinLoop, StdinIter.okLine, ih]
      rfl
  have h2 : ∀ t : List String,
      writesOf ((t.map fun s => [WAct.write s, WAct.flush]).flatten) = t := by
    intro t
    induction t with
    | nil => rfl
    | cons s t ih =>
      simp only [List.map_cons, List.flatten_cons, writesOf, List.filterMap_append,
        List.filterMap_cons, List.filterMap_nil] at ih ⊢
      simpa using ih
  exact ⟨h1 ls, by rw [h1 ls]; exact h2 ls⟩

/-- C10: every builder reachable from `new()` by setter calls has
`java_path` set (`new` initialises it to `Some "java"` and no setter clears
it), so the `java_path.unwrap()` inside `build` (src/lib.rs line 99) never
panics: `build` is total on reachable builders, returning `Ok` or one of
the two missing-field errors (the only two values of its error type). -/
theorem C10_build_never_panics (b : MinecraftServerBuilder)
    (h : ReachableBuilder b) :
    b.java_path.isSome = true ∧ b.build ≠ BuildResult.panic := by
  have hj : ∃ q, b.java_path = some q := by
    induction h with
    | new => exact ⟨"java", rfl⟩
    | set_server_path c p hc ih => exact ih
    | set_server_jar c j hc ih => exact ih
    | set_java_path c p hc ih => exact ⟨p, rfl⟩
    | set_java_args c a hc ih => exact ih
    | set_gui c g hc ih => exact ih
  obtain ⟨q, hq⟩ := hj
  refine ⟨by simp [hq], ?_⟩
  cases hsp : b.server_path with
  | none => simp [MinecraftServerBuilder.build, hsp]
  | some p =>
    cases hsj : b.server_jar with
    | none => simp [MinecraftServerBuilder.build, hsp, hsj]
    | some j => simp [MinecraftServerBuilder.build, hsp, hsj, hq]

/-- C10 witness: a concrete reachable builder (fresh builder with only the
working directory set). -/
theorem C10_build_never_panics_witness :
    (MinecraftServerBuilder.new.set_server_path "/srv/mc").java_path.isSome
        = true ∧
    (MinecraftServerBuilder.new.set_server_path "/srv/mc").build ≠
      BuildResult.panic :=
  C10_build_never_panics _
    (ReachableBuilder.set_server_path _ "/srv/mc" ReachableBuilder.new)
